import Mathlib

/-!
Shallow embedding of `src/ch/ch_process.c` (Cloud-Hypervisor process
controller of libvirt).  External collaborators (monitor, cgroup layer,
network setup helpers, kernel syscalls) are modelled by environment
records that fix the outcome of each call; the control flow, constants
and observable effects of the functions in this file are translated
directly from the C source.
-/

/-- Error classes used by `virReportError` in the source. -/
inductive VErr where
  | configUnsupported
  | operationInvalid
  | internalError
  | systemError
deriving DecidableEq

/-- `virDomainShutoffReason` values (only the ones this file uses matter). -/
inductive ShutoffReason where
  | unknown
  | shutdown
  | destroyed
  | crashed
  | failed
deriving DecidableEq

/-- Domain state as set by `virDomainObjSetState`. -/
inductive DomState where
  | running (reason : Nat)
  | shutoff (reason : ShutoffReason)
deriving DecidableEq

/-- A CPU mask (`virBitmap`) is modelled by its set of CPU indices. -/
abbrev CpuSet := Finset Nat

/-! ## chSocketRecv (ch_process.c lines 465-505) -/

/-- Result of one `poll(2)` call: return value and `errno`. -/
structure PollRes where
  ret : Int
  errno : Nat
deriving DecidableEq

/-- Result of one `recv(2)` call: either a failure with an `errno`, or the
bytes pending on the socket (the kernel delivers at most the requested
buffer size of them). -/
inductive RecvRes where
  | fail (errno : Nat)
  | ok (pending : List Char)
deriving DecidableEq

/-- Syscall environment for `chSocketRecv`: the successive outcomes `poll`
would produce for a given timeout argument, and the successive outcomes of
`recv`. -/
structure SockEnv where
  polls : Nat → List PollRes
  recvs : List RecvRes

def EINTR : Nat := 4

/-- `#define PKT_TIMEOUT_MS 500` (line 465). -/
def PKT_TIMEOUT_MS : Nat := 500

/-- `size_t buf_len = 1024;` (line 472). -/
def chRecvBufLen : Nat := 1024

/-- The `do { ret = poll(...); } while (ret < 0 && errno == EINTR);` loop
(lines 480-482): the outcome of the poll phase is the first result that is
not an EINTR failure.  `none` means the modelled outcome list ran out while
the code would still be retrying. -/
def chPollLoop : List PollRes → Option PollRes
  | [] => none
  | r :: rs => if r.ret < 0 ∧ r.errno = EINTR then chPollLoop rs else some r

/-- Number of `poll` calls the loop at lines 480-482 performs. -/
def chPollCalls : List PollRes → Nat
  | [] => 0
  | r :: rs => if r.ret < 0 ∧ r.errno = EINTR then chPollCalls rs + 1 else 1

/-- The `do { ret = recv(...); } while (ret < 0 && errno == EINTR);` loop
(lines 493-495). -/
def chRecvLoop : List RecvRes → Option RecvRes
  | [] => none
  | RecvRes.fail e :: rs => if e = EINTR then chRecvLoop rs else some (RecvRes.fail e)
  | RecvRes.ok p :: _ => some (RecvRes.ok p)

/-- Number of successful `recv` calls the loop at lines 493-495 performs. -/
def chRecvOkCalls : List RecvRes → Nat
  | [] => 0
  | RecvRes.fail e :: rs => if e = EINTR then chRecvOkCalls rs else 0
  | RecvRes.ok _ :: _ => 1

/-- `chSocketRecv` (lines 467-503).  Returns `none` where the C code
returns `NULL`; otherwise the contents of the returned buffer: `recv` is
called with a capacity of `buf_len - 1` bytes on a zero-initialised
1024-byte buffer, so at most the first 1023 pending bytes are returned. -/
def chSocketRecv (env : SockEnv) : Option (List Char) :=
  match chPollLoop (env.polls PKT_TIMEOUT_MS) with
  | none => none
  | some pr =>
    if pr.ret ≤ 0 then none
    else
      match chRecvLoop env.recvs with
      | none => none
      | some (RecvRes.fail _) => none
      | some (RecvRes.ok pending) => some (pending.take (chRecvBufLen - 1))

/-- Number of successful `recv` calls a full `chSocketRecv` run performs. -/
def chSocketRecvOkRecvCalls (env : SockEnv) : Nat :=
  match chPollLoop (env.polls PKT_TIMEOUT_MS) with
  | none => 0
  | some pr => if pr.ret ≤ 0 then 0 else chRecvOkCalls env.recvs

/-! ## The sscanf(response, "HTTP/1.%*d %d", &http_res) parse (line 632) -/

/-- `isspace` characters skipped by scanf numeric conversions. -/
def chIsWs (c : Char) : Bool :=
  c = ' ' ∨ c = '\t' ∨ c = '\n' ∨ c = '\r' ∨ c = '\x0b' ∨ c = '\x0c'

def chDropWs : List Char → List Char
  | [] => []
  | c :: cs => if chIsWs c then chDropWs cs else c :: cs

/-- Consume a maximal run of decimal digits, accumulating their value. -/
def chDigitsAux : List Char → Nat → Nat × List Char
  | [], acc => (acc, [])
  | c :: cs, acc =>
    if c.isDigit then chDigitsAux cs (acc * 10 + (c.toNat - 48)) else (acc, c :: cs)

/-- One scanf `%d` conversion: skip whitespace, optional sign, then at
least one digit; fails (matching failure) otherwise. -/
def chScanInt (s : List Char) : Option (Int × List Char) :=
  match chDropWs s with
  | [] => none
  | '-' :: rest =>
    match rest with
    | c :: _ =>
      if c.isDigit then
        match chDigitsAux rest 0 with
        | (n, r) => some (-(n : Int), r)
      else none
    | [] => none
  | '+' :: rest =>
    match rest with
    | c :: _ =>
      if c.isDigit then
        match chDigitsAux rest 0 with
        | (n, r) => some ((n : Int), r)
      else none
    | [] => none
  | c :: cs =>
    if c.isDigit then
      match chDigitsAux (c :: cs) 0 with
      | (n, r) => some ((n : Int), r)
    else none

/-- Match the literal characters of a scanf format (non-whitespace
literal directives match exactly, with no whitespace skip). -/
def chMatchLit : List Char → List Char → Option (List Char)
  | [], s => some s
  | _ :: _, [] => none
  | l :: ls, c :: cs => if c = l then chMatchLit ls cs else none

/-- `sscanf(response, "HTTP/1.%*d %d", &http_res)` (line 632): `some code`
when the conversion count is 1, `none` when the status line is malformed
(conversion count 0 or matching failure). -/
def chParseHttpStatus (s : List Char) : Option Int :=
  match chMatchLit ("HTTP/1.".toList) s with
  | none => none
  | some r1 =>
    match chScanInt r1 with
    | none => none
    | some (_, r2) =>
      match chScanInt r2 with
      | none => none
      | some (v, _) => some v

/-! ## chProcessAddNetworkDevices (lines 520-646) -/

/-- Outcomes of the external collaborators called while processing one
network definition (one iteration of the loop at lines 563-643).
`connectIfacesOk` is `virCHConnetNetworkInterfaces`, which opens the tap
file descriptors into the `tapfds` array on success (on failure it is
modelled as leaving no fds open). -/
structure NetStep where
  validateOk : Bool
  connectIfacesOk : Bool
  buildJsonOk : Bool
  sendOk : Bool
  sock : SockEnv

/-- Environment of one `chProcessAddNetworkDevices` call: driver
capability bit, socket setup outcomes, and one `NetStep` per element of
`vmdef->nets` paired with that definition's `driver.virtio.queues`. -/
structure AddNetEnv where
  capMultifd : Bool
  socketOk : Bool
  pathOk : Bool
  monConnectOk : Bool
  nets : List (Nat × NetStep)

/-- Observable result of `chProcessAddNetworkDevices`: the return code and
an accounting of tap file descriptors opened and closed locally. -/
structure AddNetOutcome where
  ret : Int
  fdsAllocated : Nat
  fdsClosed : Nat
deriving DecidableEq

/-- `tapfd_len` for one net definition (lines 574-580): `queues` counts
queue pairs and defaults to 1 when 0. -/
def tapfdLen (queues : Nat) : Nat := if queues = 0 then 1 else queues

/-- Result of one iteration of the per-interface loop. -/
structure NetResult where
  ok : Bool
  allocated : Nat
  closed : Nat
  transferAttempted : Bool
deriving DecidableEq

/-- One iteration of the loop at lines 563-643, in source order: default
the queue count, validate the definition, connect the guest interfaces
(allocating `tapfd_len` tap fds), build the JSON payload, send it with the
fds attached, close every local tap fd copy (lines 614-617, reached
whether the send succeeded or failed), then receive and parse the HTTP
response, accepting only 204 and 200 (lines 631-642). -/
def processNet (queues : Nat) (e : NetStep) : NetResult :=
  if e.validateOk = false then ⟨false, 0, 0, false⟩
  else if e.connectIfacesOk = false then ⟨false, 0, 0, false⟩
  else if e.buildJsonOk = false then ⟨false, tapfdLen queues, 0, false⟩
  else if e.sendOk = false then ⟨false, tapfdLen queues, tapfdLen queues, true⟩
  else
    match chSocketRecv e.sock with
    | none => ⟨false, tapfdLen queues, tapfdLen queues, true⟩
    | some resp =>
      match chParseHttpStatus resp with
      | none => ⟨false, tapfdLen queues, tapfdLen queues, true⟩
      | some code =>
        ⟨decide (code = 204 ∨ code = 200), tapfdLen queues, tapfdLen queues, true⟩

/-- The loop over `vmdef->nets`: stops with -1 at the first failing
interface, accumulating the fd accounting of the iterations that ran. -/
def addNetLoop : List (Nat × NetStep) → AddNetOutcome
  | [] => ⟨0, 0, 0⟩
  | (q, e) :: rest =>
    let r := processNet q e
    if r.ok then
      let o := addNetLoop rest
      ⟨o.ret, r.allocated + o.fdsAllocated, r.closed + o.fdsClosed⟩
    else ⟨-1, r.allocated, r.closed⟩

/-- `chProcessAddNetworkDevices` (lines 520-646). -/
def chProcessAddNetworkDevices (env : AddNetEnv) : AddNetOutcome :=
  if env.capMultifd = false then ⟨-1, 0, 0⟩
  else if env.socketOk = false then ⟨-1, 0, 0⟩
  else if env.pathOk = false then ⟨-1, 0, 0⟩
  else if env.monConnectOk = false then ⟨-1, 0, 0⟩
  else addNetLoop env.nets

/-- Whether one interface's response was received and carried an accepted
HTTP status (204 or 200). -/
def netStatusAccepted (e : NetStep) : Bool :=
  match chSocketRecv e.sock with
  | none => false
  | some resp =>
    match chParseHttpStatus resp with
    | none => false
    | some code => decide (code = 204 ∨ code = 200)

example : chParseHttpStatus ("HTTP/1.1 204 No Content".toList) = some 204 := by decide
example : chParseHttpStatus ("HTTP/1.1 500 Oops".toList) = some 500 := by decide
example : chParseHttpStatus ("HTTP/2 200".toList) = none := by decide
example : chParseHttpStatus ("HTTP/1.x 200".toList) = none := by decide
example : chParseHttpStatus ("HTTP/1. 200".toList) = none := by decide

/-! ## virCHProcessSetupPid (lines 208-318) -/

/-- `virCgroupThreadName` values used by this driver. -/
inductive ThreadClass where
  | emulator
  | vcpu
  | iothread
deriving DecidableEq

/-- `virDomainNumatuneMemMode` values distinguished at lines 267-269. -/
inductive MemMode where
  | strict
  | restrictive
  | interleave
  | preferred
deriving DecidableEq

/-- Environment of one `virCHProcessSetupPid` call: the domain fields it
reads and the outcome of every external call it makes. -/
structure PidEnv where
  /- `virCgroupHasController(priv->cgroup, VIR_CGROUP_CONTROLLER_CPU)` -/
  hasCpu : Bool
  /- `virCgroupHasController(priv->cgroup, VIR_CGROUP_CONTROLLER_CPUSET)` -/
  hasCpuset : Bool
  /- `vm->def->placement_mode == VIR_DOMAIN_CPU_PLACEMENT_MODE_AUTO` -/
  placementAuto : Bool
  /- `priv->autoCpuset` (may be NULL) -/
  autoCpuset : Option CpuSet
  /- `vm->def->cpumask` (may be NULL) -/
  defCpumask : Option CpuSet
  /- `virHostCPUHasBitmap()` -/
  hostHasBitmap : Bool
  /- `virHostCPUGetOnlineBitmap()`: `none` models its failure -/
  hostOnline : Option CpuSet
  /- `virDomainNumatuneGetMode(...) == 0` yields `some mode` -/
  memMode : Option MemMode
  /- `virDomainNumatuneMaybeFormatNodeset` succeeds -/
  formatNodesetOk : Bool
  /- ... and produces a non-NULL `mem_mask` -/
  memMask : Bool
  newThreadOk : Bool
  addThreadOk : Bool
  setupCpusetOk : Bool
  setMemsOk : Bool
  setupBWOk : Bool
  setAffinityOk : Bool
  setSchedOk : Bool

/-- Arguments of `virCHProcessSetupPid` that matter to its behavior. -/
structure PidArgs where
  nameval : ThreadClass
  cpumask : Option CpuSet
  period : Nat
  quota : Int
  /- whether a `sched` directive was passed (non-NULL pointer) -/
  sched : Bool

/-- Observable side effects of one `virCHProcessSetupPid` call. -/
structure PidEffects where
  cgroupCreated : Bool := false
  threadAdded : Bool := false
  /- the mask passed to `virDomainCgroupSetupCpusetCpus`, if called -/
  cpusetWritten : Option CpuSet := none
  memsWritten : Bool := false
  bwApplied : Bool := false
  /- the mask passed to `virProcessSetAffinity`, if called -/
  affinityApplied : Option CpuSet := none
  schedApplied : Bool := false
  cgroupRemoved : Bool := false
deriving DecidableEq

/-- `virCHProcessGetAllCpuAffinity` (lines 146-158): outer `none` is the
-1 return; `some none` is success with a NULL map (no host CPU bitmap). -/
def virCHProcessGetAllCpuAffinity (hostHasBitmap : Bool) (hostOnline : Option CpuSet) :
    Option (Option CpuSet) :=
  if hostHasBitmap = false then some none
  else
    match hostOnline with
    | none => none
    | some s => some (some s)

/-- The "Infer which cpumask shall be used" block (lines 244-257):
returns `(use_cpumask, affinity_cpumask)` after the block, or `none` when
`virCHProcessGetAllCpuAffinity` fails (the `goto cleanup` at line 255). -/
def chInferCpumask (env : PidEnv) (args : PidArgs) :
    Option (Option CpuSet × Option CpuSet) :=
  if args.cpumask.isSome then some (args.cpumask, none)
  else if env.placementAuto then some (env.autoCpuset, none)
  else if env.defCpumask.isSome then some (env.defCpumask, none)
  else
    match virCHProcessGetAllCpuAffinity env.hostHasBitmap env.hostOnline with
    | none => none
    | some h => some (none, h)

/-- Lines 267-273: the numatune nodeset formatting step fails. -/
def chNumatuneFormatFails (env : PidEnv) : Bool :=
  match env.memMode with
  | some m =>
    decide ((m = MemMode.strict ∨ m = MemMode.restrictive) ∧ env.formatNodesetOk = false)
  | none => false

/-- Lines 267-273: a non-NULL `mem_mask` is in hand after the block. -/
def chMemMaskPresent (env : PidEnv) : Bool :=
  match env.memMode with
  | some m =>
    decide ((m = MemMode.strict ∨ m = MemMode.restrictive) ∧ env.formatNodesetOk = true
      ∧ env.memMask = true)
  | none => false

/-- Lines 298-299: `if (!affinity_cpumask) affinity_cpumask = use_cpumask;`. -/
def chAffinityCpumask (useMask affPre : Option CpuSet) : Option CpuSet :=
  if affPre.isSome then affPre else useMask

/-- Lines 298-312: the legacy-affinity and scheduler tail of
`virCHProcessSetupPid`, starting from the effects accumulated by the
cgroup block. -/
def chSetupPidFinish (env : PidEnv) (args : PidArgs)
    (useMask affPre : Option CpuSet) (eff : PidEffects) : Option VErr × PidEffects :=
  let aff := chAffinityCpumask useMask affPre
  if aff.isSome ∧ env.setAffinityOk = false then
    (some VErr.systemError, { eff with cgroupRemoved := eff.cgroupCreated })
  else
    let eff1 := { eff with affinityApplied := aff }
    if args.sched = true ∧ args.nameval ≠ ThreadClass.emulator then
      if env.setSchedOk = false then
        (some VErr.systemError, { eff1 with cgroupRemoved := eff.cgroupCreated })
      else (none, { eff1 with schedApplied := true })
    else (none, eff1)

/-- `virCHProcessSetupPid` (lines 218-318), with the `goto cleanup`
rollback (lines 313-315) reflected in `cgroupRemoved`. -/
def virCHProcessSetupPid (env : PidEnv) (args : PidArgs) : Option VErr × PidEffects :=
  if (args.period ≠ 0 ∨ args.quota ≠ 0) ∧ env.hasCpu = false then
    (some VErr.configUnsupported, {})
  else
    match chInferCpumask env args with
    | none => (some VErr.systemError, {})
    | some masks =>
      let useMask := masks.1
      let affPre := masks.2
      if env.hasCpu = true ∨ env.hasCpuset = true then
        if chNumatuneFormatFails env then (some VErr.systemError, {})
        else if env.newThreadOk = false then (some VErr.systemError, {})
        else if env.addThreadOk = false then
          (some VErr.systemError, { cgroupCreated := true, cgroupRemoved := true })
        else if env.hasCpuset = true ∧ useMask.isSome ∧ env.setupCpusetOk = false then
          (some VErr.systemError,
           { cgroupCreated := true, threadAdded := true, cgroupRemoved := true })
        else if env.hasCpuset = true ∧ chMemMaskPresent env = true ∧ env.setMemsOk = false then
          (some VErr.systemError,
           { cgroupCreated := true, threadAdded := true,
             cpusetWritten := if env.hasCpuset then useMask else none,
             cgroupRemoved := true })
        else if env.setupBWOk = false then
          (some VErr.systemError,
           { cgroupCreated := true, threadAdded := true,
             cpusetWritten := if env.hasCpuset then useMask else none,
             memsWritten := env.hasCpuset && chMemMaskPresent env,
             cgroupRemoved := true })
        else
          chSetupPidFinish env args useMask affPre
            { cgroupCreated := true, threadAdded := true,
              cpusetWritten := if env.hasCpuset then useMask else none,
              memsWritten := env.hasCpuset && chMemMaskPresent env,
              bwApplied := true }
      else
        chSetupPidFinish env args useMask affPre {}

/-- The spec's CPU-mask resolution policy, stated in its own words
(section 4.1: explicit per-entity mask, else automatic node-local mask
under automatic placement, else VM-wide mask, else all online host CPUs).
Used to compare the source behavior against the spec. -/
def specResolvedCpuMask (env : PidEnv) (args : PidArgs) : Option CpuSet :=
  if args.cpumask.isSome then args.cpumask
  else if env.placementAuto then env.autoCpuset
  else if env.defCpumask.isSome then env.defCpumask
  else env.hostOnline

/-- The mask the source selects for the cpuset cgroup write
(`use_cpumask`, lines 244-257): the first three resolution cases only. -/
def specUseCpuMask (env : PidEnv) (args : PidArgs) : Option CpuSet :=
  if args.cpumask.isSome then args.cpumask
  else if env.placementAuto then env.autoCpuset
  else if env.defCpumask.isSome then env.defCpumask
  else none

/-! ## virCHProcessSetupVcpus (lines 416-462) -/

/-- One `virDomainVcpuDef`: online flag and optional per-vCPU mask. -/
structure VcpuDef where
  online : Bool
  cpumask : Option CpuSet

/-- `virBitmapEqual`, with libvirt's NULL convention: two NULL bitmaps are
equal, a NULL and a non-NULL one are not. -/
def virBitmapEqual : Option CpuSet → Option CpuSet → Bool
  | none, none => true
  | some a, some b => decide (a = b)
  | _, _ => false

/-- The condition of the rejection loop at lines 434-446: an online vCPU
carries a mask that differs from the VM-wide mask. -/
def vcpuAffinityConflict (defMask : Option CpuSet) (v : VcpuDef) : Bool :=
  v.online && v.cpumask.isSome && !virBitmapEqual defMask v.cpumask

/-- Environment of one `virCHProcessSetupVcpus` call. -/
structure VcpusEnv where
  /- `vm->def->cputune.period` / `.quota` -/
  period : Nat
  quota : Int
  hasCpu : Bool
  /- `virCHDomainHasVcpuPids(vm)` -/
  hasVcpuPids : Bool
  defCpumask : Option CpuSet
  /- `virDomainDefGetVcpu` for ids `0 .. maxvcpus-1` -/
  vcpus : List VcpuDef
  /- outcome of `virCHProcessSetupVcpu(vm, i)` when thread ids are known -/
  setupVcpu : Nat → Option VErr

/-- The placement loop at lines 451-459: returns the first error and the
ids of the online vCPUs for which `virCHProcessSetupVcpu` was invoked. -/
def chSetupVcpusLoop (setup : Nat → Option VErr) :
    List (Nat × VcpuDef) → Option VErr × List Nat
  | [] => (none, [])
  | (i, v) :: rest =>
    if v.online = false then chSetupVcpusLoop setup rest
    else
      match setup i with
      | some e => (some e, [i])
      | none =>
        let r := chSetupVcpusLoop setup rest
        (r.1, i :: r.2)

/-- `virCHProcessSetupVcpus` (lines 416-462): the returned list records
which vCPUs had a per-vCPU placement call made. -/
def virCHProcessSetupVcpus (env : VcpusEnv) : Option VErr × List Nat :=
  if (env.period ≠ 0 ∨ env.quota ≠ 0) ∧ env.hasCpu = false then
    (some VErr.configUnsupported, [])
  else if env.hasVcpuPids = false then
    if env.vcpus.any (vcpuAffinityConflict env.defCpumask) then
      (some VErr.operationInvalid, [])
    else (none, [])
  else chSetupVcpusLoop env.setupVcpu env.vcpus.enum

/-! ## virCHProcessStop (lines 798-844) -/

def EBUSY : Int := 16

/-- Environment of one `virCHProcessStop` call. -/
structure StopEnv where
  monitorPresent : Bool
  nnets : Nat
  /- result of the k-th `virDomainCgroupRemoveCgroup` call -/
  removeRes : Nat → Int

/-- The `retry:` loop at lines 825-835, starting at call index `k` with
`budget` retries still allowed (`retries++ < 5` allows 5 retries after the
initial call).  Returns the number of calls made from here on, the final
return value, and one entry per 200 ms `g_usleep(200*1000)` pause. -/
def stopRemoveGo (res : Nat → Int) (k : Nat) : Nat → Nat × Int × List Nat
  | 0 => (1, res k, [])
  | b + 1 =>
    if res k = -EBUSY then
      let r := stopRemoveGo res (k + 1) b
      (r.1 + 1, r.2.1, 200 :: r.2.2)
    else (1, res k, [])

/-- Observable result of `virCHProcessStop`. -/
structure StopOutcome where
  ret : Int
  monitorClosed : Bool
  ifaceStopCalled : Bool
  netsDeleted : Nat
  cgroupAttempts : Nat
  sleepsMs : List Nat
  pid : Int
  defId : Int
  machineNameCleared : Bool
  state : DomState
deriving DecidableEq

/-- `virCHProcessStop` (lines 798-844). -/
def virCHProcessStop (env : StopEnv) (reason : ShutoffReason) : StopOutcome :=
  let r := stopRemoveGo env.removeRes 0 5
  { ret := 0
    monitorClosed := env.monitorPresent
    ifaceStopCalled := true
    netsDeleted := env.nnets
    cgroupAttempts := r.1
    sleepsMs := r.2.2
    pid := 0
    defId := -1
    machineNameCleared := true
    state := DomState.shutoff reason }

/-! ## virCHProcessStart (lines 698-796) -/

/-- Environment of one `virCHProcessStart` call: the initial checks and
the outcome of each step, with the network-attach step and the vCPU step
given by their own detailed environments. -/
structure StartEnv where
  vmActive : Bool
  validateOk : Bool
  monitorPresent : Bool
  connectOk : Bool
  createVMOk : Bool
  addNetEnv : AddNetEnv
  cgroupSetupOk : Bool
  initAffinityOk : Bool
  ifaceStartOk : Bool
  bootOk : Bool
  emuThreadsOk : Bool
  ioThreadsOk : Bool
  globalCpuCgroupOk : Bool
  vcpusEnv : VcpusEnv
  updateInfoOk : Bool
  stopEnv : StopEnv

/-- Observable result of `virCHProcessStart`. -/
structure StartOutcome where
  ret : Int
  /- `virCHProcessStop` invocation by the cleanup path, if any -/
  stopCalled : Option StopOutcome
  /- the domain state set, if any -/
  state : Option DomState
  /- return of `virCHProcessUpdateInfo` when it was reached -/
  updateInfoRet : Option Int
deriving DecidableEq

/-- `virCHProcessUpdateInfo` (lines 133-144): fails only when
`virCHMonitorGetInfo` fails; console bookkeeping errors are swallowed. -/
def virCHProcessUpdateInfo (getInfoOk : Bool) : Int :=
  if getInfoOk then 0 else -1

/-- The `cleanup:` path of `virCHProcessStart` (lines 791-795): `ret` is
still -1 there, so `virCHProcessStop(driver, vm, VIR_DOMAIN_SHUTOFF_FAILED)`
always runs. -/
def chStartCleanup (env : StartEnv) : StartOutcome :=
  let so := virCHProcessStop env.stopEnv ShutoffReason.failed
  ⟨-1, some so, some so.state, none⟩

/-- `virCHProcessStart` (lines 698-796), step by step in source order.
The already-active check, the validation check and the
`virDomainInterfaceStartDevices` failure all `return -1` directly without
the cleanup path; every other failure goes through `chStartCleanup`. -/
def virCHProcessStart (env : StartEnv) (reason : Nat) : StartOutcome :=
  if env.vmActive = true then ⟨-1, none, none, none⟩
  else if env.validateOk = false then ⟨-1, none, none, none⟩
  else if env.monitorPresent = false ∧ env.connectOk = false then chStartCleanup env
  else if env.monitorPresent = false ∧ env.createVMOk = false then chStartCleanup env
  else if (chProcessAddNetworkDevices env.addNetEnv).ret ≠ 0 then chStartCleanup env
  else if env.cgroupSetupOk = false then chStartCleanup env
  else if env.initAffinityOk = false then chStartCleanup env
  else if env.ifaceStartOk = false then ⟨-1, none, none, none⟩
  else if env.bootOk = false then chStartCleanup env
  else if env.emuThreadsOk = false then chStartCleanup env
  else if env.ioThreadsOk = false then chStartCleanup env
  else if env.globalCpuCgroupOk = false then chStartCleanup env
  else if (virCHProcessSetupVcpus env.vcpusEnv).1.isSome then chStartCleanup env
  else
    ⟨0, none, some (DomState.running reason),
      some (virCHProcessUpdateInfo env.updateInfoOk)⟩

/-- The monitor connection step succeeds (lines 719-732): either a monitor
is already present, or both connect and create succeed. -/
def startMonOk (env : StartEnv) : Bool :=
  env.monitorPresent || (env.connectOk && env.createVMOk)

/-- All Start steps up to and including `virCHProcessInitCpuAffinity`
succeed. -/
def startUpToAffinityOk (env : StartEnv) : Bool :=
  !env.vmActive && env.validateOk && startMonOk env
    && decide ((chProcessAddNetworkDevices env.addNetEnv).ret = 0)
    && env.cgroupSetupOk && env.initAffinityOk

/-- Every fallible Start step succeeds. -/
def startAllOk (env : StartEnv) : Bool :=
  startUpToAffinityOk env && env.ifaceStartOk && env.bootOk && env.emuThreadsOk
    && env.ioThreadsOk && env.globalCpuCgroupOk
    && decide ((virCHProcessSetupVcpus env.vcpusEnv).1 = none)

/-- The Start failures that return -1 without invoking the Stop-based
cleanup path: the already-active check, the validation check, and the
host-side interface bring-up. -/
def startEarlyNoStop (env : StartEnv) : Bool :=
  env.vmActive || !env.validateOk || (startUpToAffinityOk env && !env.ifaceStartOk)


/-! ## Helper lemmas -/

theorem stopRemoveGo_spec (res : Nat → Int) :
    ∀ (fuel k : Nat),
      1 ≤ (stopRemoveGo res k fuel).1 ∧
      (stopRemoveGo res k fuel).1 ≤ fuel + 1 ∧
      (stopRemoveGo res k fuel).2.2.length = (stopRemoveGo res k fuel).1 - 1 ∧
      (∀ x ∈ (stopRemoveGo res k fuel).2.2, x = 200) := by
  intro fuel
  induction fuel with
  | zero => intro k; simp [stopRemoveGo]
  | succ b ih =>
    intro k
    by_cases h : res k = -EBUSY
    · obtain ⟨h1, h2, h3, h4⟩ := ih (k + 1)
      simp only [stopRemoveGo, if_pos h]
      refine ⟨by omega, by omega, ?_, ?_⟩
      · simp only [List.length_cons, h3]; omega
      · intro x hx
        rcases List.mem_cons.mp hx with rfl | hx
        · rfl
        · exact h4 x hx
    · simp [stopRemoveGo, if_neg h]

theorem stopRemoveGo_busy (res : Nat → Int) (hres : ∀ j, res j = -EBUSY) :
    ∀ (fuel k : Nat),
      stopRemoveGo res k fuel = (fuel + 1, -EBUSY, List.replicate fuel 200) := by
  intro fuel
  induction fuel with
  | zero => intro k; simp [stopRemoveGo, hres k]
  | succ b ih =>
    intro k
    simp [stopRemoveGo, hres k, ih (k + 1), List.replicate_succ]

theorem chRecvOkCalls_le_one : ∀ l : List RecvRes, chRecvOkCalls l ≤ 1 := by
  intro l
  induction l with
  | nil => simp [chRecvOkCalls]
  | cons h t ih =>
    cases h with
    | fail e =>
      by_cases he : e = EINTR
      · simpa [chRecvOkCalls, he] using ih
      · simp [chRecvOkCalls, he]
    | ok p => simp [chRecvOkCalls]

/-! ## Claim C2 -/

/-- Claim C2: `virCHProcessStop` never fails: it returns 0, zeroes the
pid, invalidates the definition id, and sets the domain state to Shutoff
with the supplied reason, for every environment (in particular for a VM
that is already stopped, so a repeated stop is a no-op that does not
error).  Cgroup removal is attempted at most 6 times (1 initial call plus
up to 5 retries), each retry preceded by exactly one 200 ms pause, and on
a persistent resource-busy condition exactly 5 retries happen before the
removal is abandoned with only a warning. -/
theorem chC2_stop_never_fails (env : StopEnv) (reason : ShutoffReason) :
    (virCHProcessStop env reason).ret = 0 ∧
    (virCHProcessStop env reason).pid = 0 ∧
    (virCHProcessStop env reason).defId = -1 ∧
    (virCHProcessStop env reason).state = DomState.shutoff reason ∧
    (virCHProcessStop env reason).cgroupAttempts ≤ 6 ∧
    (virCHProcessStop env reason).sleepsMs.length =
      (virCHProcessStop env reason).cgroupAttempts - 1 ∧
    (virCHProcessStop env reason).sleepsMs.length ≤ 5 ∧
    (∀ x ∈ (virCHProcessStop env reason).sleepsMs, x = 200) ∧
    ((∀ j, env.removeRes j = -EBUSY) →
      (virCHProcessStop env reason).cgroupAttempts = 6 ∧
      (virCHProcessStop env reason).sleepsMs = List.replicate 5 200) := by
  obtain ⟨h1, h2, h3, h4⟩ := stopRemoveGo_spec env.removeRes 5 0
  refine ⟨rfl, rfl, rfl, rfl, ?_, ?_, ?_, ?_, ?_⟩
  · simpa [virCHProcessStop] using h2
  · simpa [virCHProcessStop] using h3
  · simp only [virCHProcessStop]
    omega
  · simpa [virCHProcessStop] using h4
  · intro hbusy
    simp [virCHProcessStop, stopRemoveGo_busy env.removeRes hbusy 5 0]

def chC2busyEnv : StopEnv := ⟨false, 0, fun _ => -16⟩

/-- Witness for C2 at a concrete persistently-busy, already-stopped
environment. -/
theorem chC2_stop_never_fails_witness :
    (virCHProcessStop chC2busyEnv ShutoffReason.shutdown).ret = 0 ∧
    (virCHProcessStop chC2busyEnv ShutoffReason.shutdown).state =
      DomState.shutoff ShutoffReason.shutdown ∧
    (virCHProcessStop chC2busyEnv ShutoffReason.shutdown).cgroupAttempts = 6 ∧
    (virCHProcessStop chC2busyEnv ShutoffReason.shutdown).sleepsMs =
      List.replicate 5 200 := by
  obtain ⟨h1, -, -, h4, -, -, -, -, h9⟩ :=
    chC2_stop_never_fails chC2busyEnv ShutoffReason.shutdown
  obtain ⟨h5, h6⟩ := h9 (fun j => rfl)
  exact ⟨h1, h4, h5, h6⟩

/-! ## Claim C6 -/

def chC6env : SockEnv := ⟨fun _ => [⟨-1, 4⟩, ⟨1, 0⟩], [RecvRes.ok ['a']]⟩

/-- Claim C6 counterexample: a negative poll result (-1 with errno EINTR)
is retried by the `do/while` loop at lines 480-482 rather than being a
hard failure: with a second successful poll, `chSocketRecv` returns data
and two poll calls were made. -/
theorem chC6_counterexample :
    chSocketRecv chC6env = some ['a'] ∧
    chPollCalls (chC6env.polls PKT_TIMEOUT_MS) = 2 ∧
    (chC6env.polls PKT_TIMEOUT_MS).head? = some ⟨-1, EINTR⟩ := by decide

/-- Claim C6 (amended): `chSocketRecv` polls with a 500 ms timeout; a
timeout, or a negative poll result whose errno is not EINTR, is a hard
failure returning no data, with no further poll call (an EINTR-interrupted
poll, by contrast, is transparently retried). -/
theorem chC6_recv_poll_timeout (env : SockEnv) (pr : PollRes) (rest : List PollRes)
    (hp : env.polls PKT_TIMEOUT_MS = pr :: rest)
    (hfail : pr.ret = 0 ∨ (pr.ret < 0 ∧ pr.errno ≠ EINTR)) :
    chSocketRecv env = none ∧
    chPollCalls (env.polls PKT_TIMEOUT_MS) = 1 ∧
    PKT_TIMEOUT_MS = 500 := by
  have hcond : ¬(pr.ret < 0 ∧ pr.errno = EINTR) := by
    rcases hfail with h | ⟨h1, h2⟩
    · rintro ⟨hlt, -⟩; omega
    · rintro ⟨-, he⟩; exact h2 he
  have hle : pr.ret ≤ 0 := by
    rcases hfail with h | ⟨h1, -⟩ <;> omega
  refine ⟨?_, ?_, rfl⟩
  · simp [chSocketRecv, hp, chPollLoop, hcond, hle]
  · simp [hp, chPollCalls, hcond]

def chC6timeoutEnv : SockEnv := ⟨fun _ => [⟨0, 0⟩], []⟩

/-- Witness for C6 at a concrete timed-out poll. -/
theorem chC6_recv_poll_timeout_witness :
    chSocketRecv chC6timeoutEnv = none ∧
    chPollCalls (chC6timeoutEnv.polls PKT_TIMEOUT_MS) = 1 ∧
    PKT_TIMEOUT_MS = 500 :=
  chC6_recv_poll_timeout chC6timeoutEnv ⟨0, 0⟩ [] rfl (Or.inl rfl)

/-! ## Claim C9 -/

/-- Claim C9: every `chSocketRecv` execution performs at most one
successful `recv` call into the fixed 1024-byte buffer, so at most the
first 1023 pending bytes are returned, a longer response being silently
truncated; and a successful zero-byte `recv` yields an empty string, not
an error. -/
theorem chC9_recv_truncation :
    (∀ env : SockEnv, chSocketRecvOkRecvCalls env ≤ 1) ∧
    (∀ (env : SockEnv) (s : List Char), chSocketRecv env = some s →
      s.length ≤ chRecvBufLen - 1) ∧
    (∀ (env : SockEnv) (pr : PollRes) (pending : List Char),
      chPollLoop (env.polls PKT_TIMEOUT_MS) = some pr → 0 < pr.ret →
      chRecvLoop env.recvs = some (RecvRes.ok pending) →
      chSocketRecv env = some (pending.take (chRecvBufLen - 1))) ∧
    (∀ (env : SockEnv) (pr : PollRes),
      chPollLoop (env.polls PKT_TIMEOUT_MS) = some pr → 0 < pr.ret →
      chRecvLoop env.recvs = some (RecvRes.ok []) →
      chSocketRecv env = some []) := by
  have hshape : ∀ env : SockEnv, chSocketRecv env = none ∨
      ∃ pending : List Char,
        chSocketRecv env = some (pending.take (chRecvBufLen - 1)) := by
    intro env
    unfold chSocketRecv
    rcases hpl : chPollLoop (env.polls PKT_TIMEOUT_MS) with - | pr
    · exact Or.inl rfl
    · by_cases hle : pr.ret ≤ 0
      · simp [hle]
      · simp only [hle, if_false]
        rcases hrl : chRecvLoop env.recvs with - | rr
        · exact Or.inl rfl
        · cases rr with
          | fail e => exact Or.inl rfl
          | ok p => exact Or.inr ⟨p, rfl⟩
  have hmain : ∀ (env : SockEnv) (pr : PollRes) (pending : List Char),
      chPollLoop (env.polls PKT_TIMEOUT_MS) = some pr → 0 < pr.ret →
      chRecvLoop env.recvs = some (RecvRes.ok pending) →
      chSocketRecv env = some (pending.take (chRecvBufLen - 1)) := by
    intro env pr pending hpl hpos hrl
    have hle : ¬ pr.ret ≤ 0 := by omega
    simp [chSocketRecv, hpl, hle, hrl]
  refine ⟨?_, ?_, hmain, ?_⟩
  · intro env
    unfold chSocketRecvOkRecvCalls
    rcases chPollLoop (env.polls PKT_TIMEOUT_MS) with - | pr
    · exact Nat.zero_le 1
    · by_cases hle : pr.ret ≤ 0
      · simp [hle]
      · simp [hle, chRecvOkCalls_le_one env.recvs]
  · intro env s hs
    rcases hshape env with h | ⟨pending, h⟩
    · rw [h] at hs; cases hs
    · rw [h] at hs
      have : s = pending.take (chRecvBufLen - 1) := by
        injection hs.symm
      subst this
      exact le_trans (List.length_take_le _ _) (by norm_num [chRecvBufLen])
  · intro env pr hpl hpos hrl
    simpa using hmain env pr [] hpl hpos hrl

def chC9env : SockEnv := ⟨fun _ => [⟨1, 0⟩], [RecvRes.ok ['x']]⟩

/-- Witness for C9 at a concrete one-byte response and a concrete empty
response. -/
theorem chC9_recv_truncation_witness :
    chSocketRecv chC9env = some (['x'].take (chRecvBufLen - 1)) ∧
    chSocketRecvOkRecvCalls chC9env ≤ 1 ∧
    chSocketRecv ⟨fun _ => [⟨1, 0⟩], [RecvRes.ok []]⟩ = some [] :=
  ⟨chC9_recv_truncation.2.2.1 chC9env ⟨1, 0⟩ ['x'] rfl (by decide) rfl,
   chC9_recv_truncation.1 chC9env,
   chC9_recv_truncation.2.2.2 ⟨fun _ => [⟨1, 0⟩], [RecvRes.ok []]⟩ ⟨1, 0⟩ rfl
     (by decide) rfl⟩

/-! ## Claim C3 -/

theorem processNet_ok_accepted (q : Nat) (e : NetStep)
    (h : (processNet q e).ok = true) : netStatusAccepted e = true := by
  unfold processNet at h
  split_ifs at h
  split at h <;> rename_i hr
  · simp at h
  · split at h <;> rename_i hp
    · simp at h
    · simpa [netStatusAccepted, hr, hp] using h

theorem processNet_ok_closed (q : Nat) (e : NetStep)
    (h : (processNet q e).ok = true) :
    (processNet q e).closed = (processNet q e).allocated := by
  unfold processNet at h ⊢
  split_ifs at h ⊢ <;>
    first
      | rfl
      | (simp at h; done)
      | (split <;> first | rfl | (split <;> rfl))

theorem addNetLoop_ok_all : ∀ nets : List (Nat × NetStep),
    (addNetLoop nets).ret = 0 → ∀ p ∈ nets, netStatusAccepted p.2 = true := by
  intro nets
  induction nets with
  | nil => intro _ p hp; cases hp
  | cons hd t ih =>
    obtain ⟨q, e⟩ := hd
    intro hret p hp
    simp only [addNetLoop] at hret
    by_cases hok : (processNet q e).ok = true
    · simp only [hok, if_true] at hret
      rcases List.mem_cons.mp hp with rfl | hp
      · exact processNet_ok_accepted q e hok
      · exact ih hret p hp
    · simp only [hok] at hret
      simp at hret

theorem addNetLoop_ok_closed : ∀ nets : List (Nat × NetStep),
    (addNetLoop nets).ret = 0 →
    (addNetLoop nets).fdsClosed = (addNetLoop nets).fdsAllocated := by
  intro nets
  induction nets with
  | nil => intro _; rfl
  | cons hd t ih =>
    obtain ⟨q, e⟩ := hd
    intro hret
    simp only [addNetLoop] at hret ⊢
    by_cases hok : (processNet q e).ok = true
    · simp only [hok, if_true] at hret ⊢
      rw [processNet_ok_closed q e hok, ih hret]
    · simp only [hok] at hret
      simp at hret

/-- A single-interface environment where everything up to the response
succeeds and the control socket delivers `resp`. -/
def chC3netEnv (q : Nat) (resp : List Char) : AddNetEnv :=
  ⟨true, true, true, true,
    [(q, ⟨true, true, true, true, ⟨fun _ => [⟨1, 0⟩], [RecvRes.ok resp]⟩⟩)]⟩

/-- Claim C3: `chProcessAddNetworkDevices` succeeds only when every
interface's response parses to status 200 or 204; and for an interface
whose transfer succeeded, the whole call returns 0 exactly when the
(buffer-truncated) response parses to 204 or 200 — any other parsed code,
or a malformed status line, makes the whole operation return failure. -/
theorem chC3_attach_status_codes :
    (∀ env : AddNetEnv, (chProcessAddNetworkDevices env).ret = 0 →
      ∀ p ∈ env.nets, netStatusAccepted p.2 = true) ∧
    (∀ (q : Nat) (resp : List Char),
      (chProcessAddNetworkDevices (chC3netEnv q resp)).ret = 0 ↔
        ∃ c, chParseHttpStatus (resp.take (chRecvBufLen - 1)) = some c ∧
          (c = 204 ∨ c = 200)) := by
  constructor
  · intro env hret p hp
    unfold chProcessAddNetworkDevices at hret
    split_ifs at hret <;> try exact absurd hret (by decide)
    exact addNetLoop_ok_all env.nets hret p hp
  · intro q resp
    have hrecv : chSocketRecv ⟨fun _ => [⟨1, 0⟩], [RecvRes.ok resp]⟩ =
        some (resp.take (chRecvBufLen - 1)) := by
      simp [chSocketRecv, chPollLoop, chRecvLoop]
    simp only [chProcessAddNetworkDevices, chC3netEnv, addNetLoop, processNet, hrecv]
    rcases hp : chParseHttpStatus (resp.take (chRecvBufLen - 1)) with - | c
    · simp
    · by_cases hc : c = 204 ∨ c = 200
      · simp [hc, addNetLoop]
      · simp [hc]

def chC3goodEnv : AddNetEnv := chC3netEnv 1 ("HTTP/1.1 204 No Content".toList)

/-- Witness for C3: a concrete 204 response is accepted and a concrete
500 response makes the call fail. -/
theorem chC3_attach_status_codes_witness :
    (∀ p ∈ chC3goodEnv.nets, netStatusAccepted p.2 = true) ∧
    ((chProcessAddNetworkDevices (chC3netEnv 1 ("HTTP/1.1 500 err".toList))).ret = 0 →
      False) := by
  constructor
  · exact chC3_attach_status_codes.1 chC3goodEnv (by decide)
  · intro h
    obtain ⟨c, hc, hv⟩ := (chC3_attach_status_codes.2 1 ("HTTP/1.1 500 err".toList)).mp h
    have h500 : chParseHttpStatus (("HTTP/1.1 500 err".toList).take (chRecvBufLen - 1)) =
        some 500 := by decide
    rw [h500] at hc
    have hc5 : c = 500 := by injection hc.symm
    subst hc5
    rcases hv with h | h <;> cases h

/-! ## Claim C5 -/

def chC5env : AddNetEnv :=
  ⟨true, true, true, true, [(2, ⟨true, true, false, true, ⟨fun _ => [], []⟩⟩)]⟩

/-- Claim C5 counterexample: when `virCHMonitorBuildNetJson` fails after
the tap fds were opened by `virCHConnetNetworkInterfaces` (lines 596-600),
the loop returns -1 without closing them, so with 2 queue pairs 2 tap fds
are allocated and 0 are closed — they are leaked, contradicting "tap fds
are never leaked" on "every exit path". -/
theorem chC5_counterexample :
    chProcessAddNetworkDevices chC5env = ⟨-1, 2, 0⟩ ∧
    (chProcessAddNetworkDevices chC5env).fdsClosed <
      (chProcessAddNetworkDevices chC5env).fdsAllocated := by decide

/-- Claim C5 (amended): per interface, `tapfd_len` is the queue-pair count
(defaulting to 1 when 0); every exit path that performs the transfer
attempt closes all `tapfd_len` local tap fds whether the transfer
succeeded or failed; the transfer is attempted whenever validation,
interface connection and JSON build succeed; but on the exit path where
the JSON build fails after interface connection, the allocated fds are not
closed; and a fully successful call closes exactly as many fds as it
allocated. -/
theorem chC5_fd_close_after_transfer :
    (tapfdLen 0 = 1) ∧
    (∀ (q : Nat) (e : NetStep), (processNet q e).transferAttempted = true →
      (processNet q e).allocated = tapfdLen q ∧
      (processNet q e).closed = tapfdLen q) ∧
    (∀ (q : Nat) (e : NetStep),
      e.validateOk = true → e.connectIfacesOk = true → e.buildJsonOk = true →
      (processNet q e).transferAttempted = true) ∧
    (∀ (q : Nat) (e : NetStep),
      e.validateOk = true → e.connectIfacesOk = true → e.buildJsonOk = false →
      (processNet q e).allocated = tapfdLen q ∧ (processNet q e).closed = 0) ∧
    (∀ env : AddNetEnv, (chProcessAddNetworkDevices env).ret = 0 →
      (chProcessAddNetworkDevices env).fdsClosed =
        (chProcessAddNetworkDevices env).fdsAllocated) := by
  refine ⟨rfl, ?_, ?_, ?_, ?_⟩
  · intro q e h
    unfold processNet at h ⊢
    split_ifs at h ⊢ <;>
      first
        | exact ⟨rfl, rfl⟩
        | (simp at h; done)
        | (split <;> first | exact ⟨rfl, rfl⟩ | (split <;> exact ⟨rfl, rfl⟩))
  · intro q e h1 h2 h3
    unfold processNet
    simp only [h1, h2, h3]
    norm_num
    by_cases hs : e.sendOk = false
    · rw [if_pos hs]
    · rw [if_neg hs]
      split
      · rfl
      · split <;> rfl
  · intro q e h1 h2 h3
    unfold processNet
    simp [h1, h2, h3]
  · intro env hret
    unfold chProcessAddNetworkDevices at hret ⊢
    split_ifs at hret ⊢ <;> try rfl
    exact addNetLoop_ok_closed env.nets hret

/-- Two interfaces with 2 queue pairs each, everything succeeding. -/
def chC5goodEnv : AddNetEnv :=
  ⟨true, true, true, true,
    [(2, ⟨true, true, true, true,
        ⟨fun _ => [⟨1, 0⟩], [RecvRes.ok ("HTTP/1.1 204 ok".toList)]⟩⟩),
     (2, ⟨true, true, true, true,
        ⟨fun _ => [⟨1, 0⟩], [RecvRes.ok ("HTTP/1.1 200 ok".toList)]⟩⟩)]⟩

/-- Witness for C5: on the two-interface 2-queue-pair scenario each
interface allocates and closes 2 fds, and the successful whole call closes
exactly what it allocated (4 of 4). -/
theorem chC5_fd_close_after_transfer_witness :
    (processNet 2 ⟨true, true, true, true,
        ⟨fun _ => [⟨1, 0⟩], [RecvRes.ok ("HTTP/1.1 204 ok".toList)]⟩⟩).closed =
      tapfdLen 2 ∧
    (chProcessAddNetworkDevices chC5goodEnv).fdsClosed =
      (chProcessAddNetworkDevices chC5goodEnv).fdsAllocated ∧
    (chProcessAddNetworkDevices chC5goodEnv).fdsAllocated = 4 := by
  refine ⟨(chC5_fd_close_after_transfer.2.1 2 _ (by decide)).2, ?_, by decide⟩
  exact chC5_fd_close_after_transfer.2.2.2.2 chC5goodEnv (by decide)

/-! ## Claims C4 and C7 -/

theorem chInferCpumask_spec (env : PidEnv) (args : PidArgs)
    (hwf : env.hostHasBitmap = false → env.hostOnline = none) :
    ∀ u a, chInferCpumask env args = some (u, a) →
      u = specUseCpuMask env args ∧
      chAffinityCpumask u a = specResolvedCpuMask env args := by
  intro u a h
  unfold chInferCpumask at h
  unfold specUseCpuMask specResolvedCpuMask chAffinityCpumask
  by_cases h1 : args.cpumask.isSome
  · simp only [if_pos h1] at h ⊢
    simp only [Option.some.injEq, Prod.mk.injEq] at h
    obtain ⟨hu, ha⟩ := h
    subst hu; subst ha
    simp
  · simp only [if_neg h1] at h ⊢
    by_cases h2 : env.placementAuto
    · simp only [if_pos h2] at h ⊢
      simp only [Option.some.injEq, Prod.mk.injEq] at h
      obtain ⟨hu, ha⟩ := h
      subst hu; subst ha
      simp
    · simp only [if_neg h2] at h ⊢
      by_cases h3 : env.defCpumask.isSome
      · simp only [if_pos h3] at h ⊢
        simp only [Option.some.injEq, Prod.mk.injEq] at h
        obtain ⟨hu, ha⟩ := h
        subst hu; subst ha
        simp
      · simp only [if_neg h3] at h ⊢
        cases hb : env.hostHasBitmap
        · have ho := hwf hb
          simp [virCHProcessGetAllCpuAffinity, hb, ho] at h
          obtain ⟨hu, ha⟩ := h
          subst hu; subst ha
          simp [ho]
        · rcases ho : env.hostOnline with - | s
          · simp [virCHProcessGetAllCpuAffinity, hb, ho] at h
          · simp [virCHProcessGetAllCpuAffinity, hb, ho] at h
            obtain ⟨hu, ha⟩ := h
            subst hu; subst ha
            simp [ho]

theorem chSetupPidFinish_ok (env : PidEnv) (args : PidArgs)
    (u a : Option CpuSet) (eff : PidEffects)
    (h : (chSetupPidFinish env args u a eff).1 = none) :
    (chSetupPidFinish env args u a eff).2.affinityApplied = chAffinityCpumask u a ∧
    (chSetupPidFinish env args u a eff).2.cpusetWritten = eff.cpusetWritten := by
  simp only [chSetupPidFinish] at h ⊢
  by_cases h1 : (chAffinityCpumask u a).isSome = true ∧ env.setAffinityOk = false
  · rw [if_pos h1] at h; simp at h
  · rw [if_neg h1] at h ⊢
    by_cases h2 : args.sched = true ∧ args.nameval ≠ ThreadClass.emulator
    · rw [if_pos h2] at h ⊢
      by_cases h3 : env.setSchedOk = false
      · rw [if_pos h3] at h; simp at h
      · rw [if_neg h3] at h ⊢
        exact ⟨rfl, rfl⟩
    · rw [if_neg h2] at h ⊢
      exact ⟨rfl, rfl⟩

theorem chSetupPidFinish_not_cfg (env : PidEnv) (args : PidArgs)
    (u a : Option CpuSet) (eff : PidEffects) :
    (chSetupPidFinish env args u a eff).1 ≠ some VErr.configUnsupported := by
  simp only [chSetupPidFinish]
  split_ifs <;> simp

def chC4cEnv : PidEnv :=
  ⟨true, true, false, none, none, true, some {0, 1}, none, true, false,
   true, true, true, true, true, true, true⟩

def chC4cArgs : PidArgs := ⟨ThreadClass.vcpu, none, 0, 0, false⟩

/-- Claim C4 counterexample: with no explicit mask, non-automatic
placement and no VM-wide mask, the resolution reaches case (4) and yields
the online host CPU set {0, 1}; the cpuset controller is available and the
call succeeds, applying {0, 1} via the legacy affinity call — but the
cpuset cgroup is not written at all (lines 284-287 write `use_cpumask`,
which is NULL in this case), contradicting the claim that the resolved
mask is applied "both to the cpuset cgroup when available and to the
legacy per-thread affinity call". -/
theorem chC4_counterexample :
    (virCHProcessSetupPid chC4cEnv chC4cArgs).1 = none ∧
    chC4cEnv.hasCpuset = true ∧
    specResolvedCpuMask chC4cEnv chC4cArgs = some {0, 1} ∧
    (virCHProcessSetupPid chC4cEnv chC4cArgs).2.affinityApplied = some {0, 1} ∧
    (virCHProcessSetupPid chC4cEnv chC4cArgs).2.cpusetWritten = none := by decide

/-- Claim C4 (amended): on success of `virCHProcessSetupPid` (over any
environment where a missing host CPU bitmap implies no online map), the
mask applied by the legacy per-thread affinity call is resolved by
priority order, first match wins: (1) the explicit per-entity cpumask
argument, (2) the automatic node-local mask under automatic placement
mode, (3) the explicit VM-wide mask, (4) otherwise the set of all online
host CPUs.  The cpuset cgroup write (when the cpuset controller is
available) uses the mask from cases (1)-(3) only; in case (4) the
online-host set is applied solely via the affinity call and the cpuset
cgroup is left unwritten.  A non-empty explicit cpuMask results in the
thread's affinity being exactly that set. -/
theorem chC4_cpumask_resolution (env : PidEnv) (args : PidArgs)
    (hwf : env.hostHasBitmap = false → env.hostOnline = none)
    (hok : (virCHProcessSetupPid env args).1 = none) :
    (virCHProcessSetupPid env args).2.affinityApplied = specResolvedCpuMask env args ∧
    (virCHProcessSetupPid env args).2.cpusetWritten =
      (if env.hasCpuset = true then specUseCpuMask env args else none) ∧
    (∀ m : CpuSet, args.cpumask = some m →
      (virCHProcessSetupPid env args).2.affinityApplied = some m) := by
  have hmain :
      (virCHProcessSetupPid env args).2.affinityApplied = specResolvedCpuMask env args ∧
      (virCHProcessSetupPid env args).2.cpusetWritten =
        (if env.hasCpuset = true then specUseCpuMask env args else none) := by
    unfold virCHProcessSetupPid at hok ⊢
    by_cases hbw : (args.period ≠ 0 ∨ args.quota ≠ 0) ∧ env.hasCpu = false
    · rw [if_pos hbw] at hok; simp at hok
    · rw [if_neg hbw] at hok ⊢
      rcases hm : chInferCpumask env args with - | ⟨u, a⟩
      · rw [hm] at hok; simp at hok
      · rw [hm] at hok
        dsimp only at hok ⊢
        obtain ⟨hu, hres⟩ := chInferCpumask_spec env args hwf u a hm
        by_cases hcg : env.hasCpu = true ∨ env.hasCpuset = true
        · simp only [if_pos hcg] at hok ⊢
          split_ifs at hok ⊢ <;>
            first
              | exact absurd hok (Option.some_ne_none _)
              | (obtain ⟨haf, hcw⟩ := chSetupPidFinish_ok env args u a _ hok
                 exact ⟨by rw [haf, hres], by rw [hcw]; try simp_all [hu]⟩)
        · simp only [if_neg hcg] at hok ⊢
          obtain ⟨haf, hcw⟩ := chSetupPidFinish_ok env args u a _ hok
          have hcs : env.hasCpuset = false := by
            cases hc : env.hasCpuset
            · rfl
            · exact absurd (Or.inr hc) hcg
          refine ⟨by rw [haf, hres], ?_⟩
          rw [hcw]
          simp [hcs]
  refine ⟨hmain.1, hmain.2, ?_⟩
  intro m hm
  rw [hmain.1]
  unfold specResolvedCpuMask
  simp [hm]

def chC4okArgs : PidArgs := ⟨ThreadClass.vcpu, some {0, 1}, 0, 0, false⟩

/-- Witness for C4 at a concrete explicit per-vCPU mask {0, 1}: both the
affinity call and the cpuset cgroup receive exactly that set. -/
theorem chC4_cpumask_resolution_witness :
    (virCHProcessSetupPid chC4cEnv chC4okArgs).2.affinityApplied = some {0, 1} ∧
    (virCHProcessSetupPid chC4cEnv chC4okArgs).2.cpusetWritten = some {0, 1} := by
  obtain ⟨h1, h2, h3⟩ :=
    chC4_cpumask_resolution chC4cEnv chC4okArgs (by decide) (by decide)
  refine ⟨h3 {0, 1} rfl, ?_⟩
  rw [h2]
  decide

def chC7env : PidEnv :=
  ⟨false, false, false, none, none, false, none, none, true, false,
   true, true, true, true, true, true, true⟩

def chC7args : PidArgs := ⟨ThreadClass.vcpu, none, 0, -1, false⟩

/-- Claim C7 counterexample: with period = 0 and quota = -1 the bandwidth
limit is unset per the data model's "quota ≤ 0 or period = 0" convention,
yet the guard at lines 237-242 (`(period || quota)` in C) still fails with
ConfigUnsupported when the CPU controller is missing. -/
theorem chC7_counterexample :
    (chC7args.quota ≤ 0 ∧ chC7args.period = 0) ∧
    chC7env.hasCpu = false ∧
    (virCHProcessSetupPid chC7env chC7args).1 = some VErr.configUnsupported := by
  decide

/-- Claim C7 (amended): `virCHProcessSetupPid` fails with ConfigUnsupported
exactly when (period ≠ 0 or quota ≠ 0) and the VM's cgroup lacks the CPU
controller — the code treats the bandwidth limit as "set" whenever either
field is nonzero, which includes quota < 0 or period = 0 combinations the
data model calls unset. -/
theorem chC7_bandwidth_guard (env : PidEnv) (args : PidArgs) :
    (virCHProcessSetupPid env args).1 = some VErr.configUnsupported ↔
      ((args.period ≠ 0 ∨ args.quota ≠ 0) ∧ env.hasCpu = false) := by
  constructor
  · intro h
    by_cases hbw : (args.period ≠ 0 ∨ args.quota ≠ 0) ∧ env.hasCpu = false
    · exact hbw
    · exfalso
      unfold virCHProcessSetupPid at h
      rw [if_neg hbw] at h
      rcases hm : chInferCpumask env args with - | ⟨u, a⟩
      · rw [hm] at h; simp at h
      · rw [hm] at h
        dsimp only at h
        by_cases hcg : env.hasCpu = true ∨ env.hasCpuset = true
        · simp only [if_pos hcg] at h
          split_ifs at h <;>
            first
              | simp at h
              | exact chSetupPidFinish_not_cfg env args u a _ h
        · simp only [if_neg hcg] at h
          exact chSetupPidFinish_not_cfg env args u a _ h
  · intro h
    unfold virCHProcessSetupPid
    rw [if_pos h]

/-- Witness for C7 at a concrete nonzero period with no CPU controller. -/
theorem chC7_bandwidth_guard_witness :
    (virCHProcessSetupPid chC7env ⟨ThreadClass.vcpu, none, 100000, 0, false⟩).1 =
      some VErr.configUnsupported :=
  (chC7_bandwidth_guard chC7env ⟨ThreadClass.vcpu, none, 100000, 0, false⟩).mpr
    ⟨Or.inl (by decide), rfl⟩

theorem optionIsSomeFalse {α : Type} (o : Option α) : o.isSome = false ↔ o = none := by
  cases o <;> simp

/-- The fully successful Start run (every step succeeds). -/
theorem chStart_run_success (env : StartEnv) (reason : Nat)
    (h : startAllOk env = true) :
    virCHProcessStart env reason =
      ⟨0, none, some (DomState.running reason),
        some (virCHProcessUpdateInfo env.updateInfoOk)⟩ := by
  unfold startAllOk startUpToAffinityOk startMonOk at h
  simp only [Bool.and_eq_true, Bool.or_eq_true, Bool.not_eq_true',
    decide_eq_true_eq, and_assoc] at h
  obtain ⟨hva, hv, hmon, hnet, hcg, hia, hif, hb, he, hio, hg, hvc⟩ := h
  have hm3 : ¬(env.monitorPresent = false ∧ env.connectOk = false) := by
    rcases hmon with h | ⟨h1, h2⟩
    · simp [h]
    · simp [h1]
  have hm4 : ¬(env.monitorPresent = false ∧ env.createVMOk = false) := by
    rcases hmon with h | ⟨h1, h2⟩
    · simp [h]
    · simp [h2]
  unfold virCHProcessStart
  rw [if_neg (by simp [hva]), if_neg (by simp [hv]), if_neg hm3, if_neg hm4,
    if_neg (by simp [hnet]), if_neg (by simp [hcg]), if_neg (by simp [hia]),
    if_neg (by simp [hif]), if_neg (by simp [hb]), if_neg (by simp [he]),
    if_neg (by simp [hio]), if_neg (by simp [hg]), if_neg (by simp [hvc])]

/-- The Start failures that return -1 directly, without Stop. -/
theorem chStart_run_early (env : StartEnv) (reason : Nat)
    (h2 : startEarlyNoStop env = true) :
    virCHProcessStart env reason = ⟨-1, none, none, none⟩ := by
  unfold virCHProcessStart
  by_cases hva : env.vmActive = true
  · rw [if_pos hva]
  · rw [if_neg hva]
    by_cases hv : env.validateOk = false
    · rw [if_pos hv]
    · rw [if_neg hv]
      have hva' : env.vmActive = false := by rwa [Bool.not_eq_true] at hva
      have hv' : env.validateOk = true := by rwa [Bool.not_eq_false] at hv
      rw [startEarlyNoStop, hva', hv'] at h2
      simp only [Bool.not_true, Bool.false_or, Bool.and_eq_true] at h2
      obtain ⟨hup, hif⟩ := h2
      unfold startUpToAffinityOk startMonOk at hup
      simp only [Bool.and_eq_true, Bool.or_eq_true, Bool.not_eq_true',
        decide_eq_true_eq, and_assoc] at hup
      obtain ⟨hva2, hv2, hmon, hnet, hcg, hia⟩ := hup
      rw [Bool.not_eq_true'] at hif
      have hm3 : ¬(env.monitorPresent = false ∧ env.connectOk = false) := by
        rcases hmon with h | ⟨ha, hb⟩
        · simp [h]
        · simp [ha]
      have hm4 : ¬(env.monitorPresent = false ∧ env.createVMOk = false) := by
        rcases hmon with h | ⟨ha, hb⟩
        · simp [h]
        · simp [hb]
      rw [if_neg hm3, if_neg hm4, if_neg (by simp [hnet]),
        if_neg (by simp [hcg]), if_neg (by simp [hia]), if_pos hif]

/-- Every other Start failure runs the Stop-based cleanup path. -/
theorem chStart_run_cleanup (env : StartEnv) (reason : Nat)
    (h1 : startAllOk env = false) (h2 : startEarlyNoStop env = false) :
    virCHProcessStart env reason =
      ⟨-1, some (virCHProcessStop env.stopEnv ShutoffReason.failed),
       some (DomState.shutoff ShutoffReason.failed), none⟩ := by
  unfold virCHProcessStart
  by_cases hva : env.vmActive = true
  · simp [startEarlyNoStop, hva] at h2
  · rw [if_neg hva]
    by_cases hv : env.validateOk = false
    · simp [startEarlyNoStop, hv] at h2
    · rw [if_neg hv]
      by_cases h3 : env.monitorPresent = false ∧ env.connectOk = false
      · rw [if_pos h3]; rfl
      · rw [if_neg h3]
        by_cases h4 : env.monitorPresent = false ∧ env.createVMOk = false
        · rw [if_pos h4]; rfl
        · rw [if_neg h4]
          by_cases h5 : (chProcessAddNetworkDevices env.addNetEnv).ret ≠ 0
          · rw [if_pos h5]; rfl
          · rw [if_neg h5]
            by_cases h6 : env.cgroupSetupOk = false
            · rw [if_pos h6]; rfl
            · rw [if_neg h6]
              by_cases h7 : env.initAffinityOk = false
              · rw [if_pos h7]; rfl
              · rw [if_neg h7]
                have hmon : startMonOk env = true := by
                  unfold startMonOk
                  by_cases hmp : env.monitorPresent = true
                  · rw [hmp]; rfl
                  · rw [Bool.not_eq_true] at hmp
                    have hc : env.connectOk = true := by
                      by_cases hc : env.connectOk = true
                      · exact hc
                      · rw [Bool.not_eq_true] at hc
                        exact absurd ⟨hmp, hc⟩ h3
                    have hcr : env.createVMOk = true := by
                      by_cases hc : env.createVMOk = true
                      · exact hc
                      · rw [Bool.not_eq_true] at hc
                        exact absurd ⟨hmp, hc⟩ h4
                    rw [hmp, hc, hcr]
                    rfl
                have hup : startUpToAffinityOk env = true := by
                  unfold startUpToAffinityOk
                  rw [hmon]
                  simp_all
                by_cases h8 : env.ifaceStartOk = false
                · rw [startEarlyNoStop, hup] at h2
                  simp [h8] at h2
                · rw [if_neg h8]
                  by_cases h9 : env.bootOk = false
                  · rw [if_pos h9]; rfl
                  · rw [if_neg h9]
                    by_cases h10 : env.emuThreadsOk = false
                    · rw [if_pos h10]; rfl
                    · rw [if_neg h10]
                      by_cases h11 : env.ioThreadsOk = false
                      · rw [if_pos h11]; rfl
                      · rw [if_neg h11]
                        by_cases h12 : env.globalCpuCgroupOk = false
                        · rw [if_pos h12]; rfl
                        · rw [if_neg h12]
                          by_cases h13 :
                              (virCHProcessSetupVcpus env.vcpusEnv).1.isSome = true
                          · rw [if_pos h13]; rfl
                          · exfalso
                            rw [startAllOk, hup] at h1
                            simp only [Bool.not_eq_true, optionIsSomeFalse] at h13
                            simp_all

def chC1env : StartEnv :=
  ⟨false, false, true, true, true, ⟨true, true, true, true, []⟩, true, true, true,
   true, true, true, true, ⟨0, 0, true, true, none, [], fun _ => none⟩, true,
   ⟨true, 0, fun _ => 0⟩⟩

/-- Claim C1 counterexample: a validation failure (lines 715-717) happens
during `virCHProcessStart` and is not the interface bring-up, yet Start
returns -1 without invoking `virCHProcessStop` — so the interface bring-up
is not the only exception to the Stop-based cleanup policy. -/
theorem chC1_counterexample :
    (virCHProcessStart chC1env 1).ret = -1 ∧
    (virCHProcessStart chC1env 1).stopCalled = none ∧
    chC1env.validateOk = false ∧
    chC1env.ifaceStartOk = true := by decide

/-- Claim C1 (amended): when every step succeeds, Start returns 0 without
Stop; when a step fails, Start returns -1 and invokes the full Stop-based
cleanup (`virCHProcessStop` with reason Failed, leaving the domain Shutoff
with reason Failed) — except for three failures that return early without
Stop: the already-active check, the start validation, and the host-side
network interface bring-up (`virDomainInterfaceStartDevices`). -/
theorem chC1_cleanup_policy (env : StartEnv) (reason : Nat) :
    (startAllOk env = true →
      (virCHProcessStart env reason).ret = 0 ∧
      (virCHProcessStart env reason).stopCalled = none) ∧
    (startAllOk env = false → startEarlyNoStop env = false →
      (virCHProcessStart env reason).ret = -1 ∧
      (virCHProcessStart env reason).stopCalled =
        some (virCHProcessStop env.stopEnv ShutoffReason.failed) ∧
      (virCHProcessStart env reason).state =
        some (DomState.shutoff ShutoffReason.failed)) ∧
    (startAllOk env = false → startEarlyNoStop env = true →
      (virCHProcessStart env reason).ret = -1 ∧
      (virCHProcessStart env reason).stopCalled = none) := by
  refine ⟨?_, ?_, ?_⟩
  · intro h
    rw [chStart_run_success env reason h]
    exact ⟨rfl, rfl⟩
  · intro h1 h2
    rw [chStart_run_cleanup env reason h1 h2]
    exact ⟨rfl, rfl, rfl⟩
  · intro h1 h2
    rw [chStart_run_early env reason h2]
    exact ⟨rfl, rfl⟩

def chC1bootFailEnv : StartEnv := { chC1env with validateOk := true, bootOk := false }

/-- Witness for C1 at a concrete boot failure: Stop runs with reason
Failed and the domain ends Shutoff with reason Failed. -/
theorem chC1_cleanup_policy_witness :
    (virCHProcessStart chC1bootFailEnv 1).stopCalled =
      some (virCHProcessStop chC1bootFailEnv.stopEnv ShutoffReason.failed) ∧
    (virCHProcessStart chC1bootFailEnv 1).state =
      some (DomState.shutoff ShutoffReason.failed) :=
  ⟨((chC1_cleanup_policy chC1bootFailEnv 1).2.1 (by decide) (by decide)).2.1,
   ((chC1_cleanup_policy chC1bootFailEnv 1).2.1 (by decide) (by decide)).2.2⟩

def chC8env : VcpusEnv := ⟨1000, 0, false, false, none, [], fun _ => none⟩

/-- Claim C8 counterexample: with no vCPU thread ids known and no online
vCPU requesting a differing mask, `virCHProcessSetupVcpus` still fails
(with ConfigUnsupported) when a CPU bandwidth limit is set and the cgroup
CPU controller is missing (lines 423-429) — it does not "succeed
trivially". -/
theorem chC8_counterexample :
    virCHProcessSetupVcpus chC8env = (some VErr.configUnsupported, []) ∧
    chC8env.hasVcpuPids = false ∧
    chC8env.vcpus.any (vcpuAffinityConflict chC8env.defCpumask) = false := by decide

/-- Claim C8 (amended): when no per-vCPU thread ids are known and the
bandwidth/CPU-controller precondition does not fail, `virCHProcessSetupVcpus`
fails with OperationInvalid exactly when some online vCPU carries a
cpumask different from the VM-wide mask, and succeeds trivially otherwise;
in both cases no per-vCPU placement calls are made (the returned placement
list is empty).  And when the vCPU step fails with OperationInvalid after
every earlier Start step succeeded, Start aborts with -1 through the
Stop-based cleanup. -/
theorem chC8_no_pids_validation :
    (∀ env : VcpusEnv, env.hasVcpuPids = false →
      ¬((env.period ≠ 0 ∨ env.quota ≠ 0) ∧ env.hasCpu = false) →
      ((env.vcpus.any (vcpuAffinityConflict env.defCpumask) = true →
          virCHProcessSetupVcpus env = (some VErr.operationInvalid, [])) ∧
        (env.vcpus.any (vcpuAffinityConflict env.defCpumask) = false →
          virCHProcessSetupVcpus env = (none, [])))) ∧
    (∀ (senv : StartEnv) (reason : Nat),
      startUpToAffinityOk senv = true → senv.ifaceStartOk = true →
      senv.bootOk = true → senv.emuThreadsOk = true → senv.ioThreadsOk = true →
      senv.globalCpuCgroupOk = true →
      (virCHProcessSetupVcpus senv.vcpusEnv).1 = some VErr.operationInvalid →
      (virCHProcessStart senv reason).ret = -1 ∧
      (virCHProcessStart senv reason).stopCalled =
        some (virCHProcessStop senv.stopEnv ShutoffReason.failed)) := by
  constructor
  · intro env hpids hbw
    constructor
    · intro hany
      unfold virCHProcessSetupVcpus
      rw [if_neg hbw, if_pos hpids, if_pos hany]
    · intro hany
      unfold virCHProcessSetupVcpus
      rw [if_neg hbw, if_pos hpids, if_neg (by simp [hany])]
  · intro senv reason h1 h2 h3 h4 h5 h6 h7
    have hall : startAllOk senv = false := by
      simp [startAllOk, h7]
    have hearly : startEarlyNoStop senv = false := by
      have hx := h1
      unfold startUpToAffinityOk startMonOk at hx
      simp only [Bool.and_eq_true, Bool.or_eq_true, Bool.not_eq_true',
        decide_eq_true_eq, and_assoc] at hx
      obtain ⟨hva, hv, -, -, -, -⟩ := hx
      rw [startEarlyNoStop, hva, hv, h1, h2]
      rfl
    rw [chStart_run_cleanup senv reason hall hearly]
    exact ⟨rfl, rfl⟩

def chC8conflictEnv : VcpusEnv :=
  ⟨0, 0, true, false, some {0}, [⟨true, some {1}⟩], fun _ => none⟩

def chC8startEnv : StartEnv :=
  { chC1env with validateOk := true, vcpusEnv := chC8conflictEnv }

/-- Witness for C8: one online vCPU pinned to {1} against a VM-wide mask
{0}, before thread ids are known, yields OperationInvalid and aborts a
Start that had succeeded up to that point. -/
theorem chC8_no_pids_validation_witness :
    virCHProcessSetupVcpus chC8conflictEnv = (some VErr.operationInvalid, []) ∧
    (virCHProcessStart chC8startEnv 3).ret = -1 :=
  ⟨(chC8_no_pids_validation.1 chC8conflictEnv rfl (by decide)).1 (by decide),
   (chC8_no_pids_validation.2 chC8startEnv 3 (by decide) rfl rfl rfl rfl rfl
      (by decide)).1⟩

/-- Claim C10: whatever the outcome of the final post-boot info query
(`virCHProcessUpdateInfo`, whose return value line 786 ignores), a Start
whose other steps all succeed still transitions the domain to Running with
the supplied reason and returns 0, with no Stop. -/
theorem chC10_updateinfo_nonfatal (env : StartEnv) (reason : Nat) (b : Bool)
    (h : startAllOk env = true) :
    (virCHProcessStart { env with updateInfoOk := b } reason).ret = 0 ∧
    (virCHProcessStart { env with updateInfoOk := b } reason).state =
      some (DomState.running reason) ∧
    (virCHProcessStart { env with updateInfoOk := b } reason).stopCalled = none := by
  have h2 : startAllOk { env with updateInfoOk := b } = true := h
  rw [chStart_run_success { env with updateInfoOk := b } reason h2]
  exact ⟨rfl, rfl, rfl⟩

def chC10okEnv : StartEnv := { chC1env with validateOk := true }

/-- Witness for C10 at a concrete environment whose info query fails. -/
theorem chC10_updateinfo_nonfatal_witness :
    (virCHProcessStart { chC10okEnv with updateInfoOk := false } 7).ret = 0 ∧
    (virCHProcessStart { chC10okEnv with updateInfoOk := false } 7).state =
      some (DomState.running 7) :=
  ⟨(chC10_updateinfo_nonfatal chC10okEnv 7 false (by decide)).1,
   (chC10_updateinfo_nonfatal chC10okEnv 7 false (by decide)).2.1⟩
